import Mathlib

/-!
Shallow embedding of the latency-probing core of the `latprobe` repository.

Numbers: JavaScript numbers here are epoch-millisecond timestamps and the
arithmetic applied to them is addition, subtraction and division by 2, all of
which are exact on the magnitudes involved; we embed them as `ℚ`.

Sources embedded below:
- `deriveSample` — src/client/echoer/index.ts (and the variant in
  src/unnamed/part_007, which additionally pipes through an opaque trace
  record that no numeric claim concerns);
- the `Echoer` client session (src/unnamed/part_007): its state, its
  `handleMessage`, `handleClose`, `handleError` handlers, `summarize`,
  and `waitForCompletion`;
- the echo responder `Candidate.webSocketMessage`
  (src/unnamed/part_002 / src/doperf/src/objects/candidate.ts);
- the aggregation (`aggregateResults` in src/unnamed/part_006 and
  `generateJsonOutput` in src/client/echoer/json-exporter.ts compute the
  same statistics block) and the orchestrating `main` (src/unnamed/part_006).
-/

/-- Derived record of one echo exchange, `EchoSample` in the source
(src/client/echoer/index.ts). The part_007 variant also carries the opaque
`cgiTrace` pass-through, which no claim concerns and is omitted here. -/
structure EchoSample where
  rtt : ℚ
  proc : ℚ
  uplink : ℚ
  downlink : ℚ
  offset : ℚ
deriving Repr, DecidableEq

/-- Skew Correction Engine, `deriveSample(T1, T2, T3, T4)` from
src/client/echoer/index.ts lines 444-456 (same formulas in
src/unnamed/part_007 lines 6-18). -/
def deriveSample (T1 T2 T3 T4 : ℚ) : EchoSample :=
  let proc := T3 - T2
  -- NTP math
  let theta := ((T2 - T1) + (T3 - T4)) / 2
  let delta := (T4 - T1) - (T3 - T2)
  -- skew-corrected one-way legs
  let uplink := (T2 - T1) - theta
  let downlink := (T4 - T3) + theta
  { rtt := delta, proc := proc, uplink := uplink, downlink := downlink, offset := theta }

/-- C1: for every four numeric inputs the Skew Correction Engine returns a
sample with exactly `proc = T3 - T2`, `offset = ((T2 - T1) + (T3 - T4)) / 2`,
`rtt = (T4 - T1) - (T3 - T2)`, `uplink = (T2 - T1) - offset`,
`downlink = (T4 - T3) + offset`; in particular `proc = T3 - T2` exactly with
no correction applied to that term. The function is total on `ℚ⁴` (it never
fails given four numbers). -/
theorem C1_derive_matches_spec_formulas (T1 T2 T3 T4 : ℚ) :
    deriveSample T1 T2 T3 T4 =
      { proc := T3 - T2
        offset := ((T2 - T1) + (T3 - T4)) / 2
        rtt := (T4 - T1) - (T3 - T2)
        uplink := (T2 - T1) - ((T2 - T1) + (T3 - T4)) / 2
        downlink := (T4 - T3) + ((T2 - T1) + (T3 - T4)) / 2 } := rfl

/-- C2: `deriveSample` is invariant under shifting only the client clock —
adding a constant `k` to both T1 and T4 leaves rtt, proc, uplink and downlink
unchanged and shifts offset by `-k`; and at the concrete instance
T1=1000, T2=1500, T3=1510, T4=2000 it yields proc = 10, offset = 5,
rtt = 990, uplink = 495, downlink = 495. -/
theorem C2_skew_invariance (T1 T2 T3 T4 k : ℚ) :
    (deriveSample (T1 + k) T2 T3 (T4 + k)).rtt = (deriveSample T1 T2 T3 T4).rtt ∧
    (deriveSample (T1 + k) T2 T3 (T4 + k)).proc = (deriveSample T1 T2 T3 T4).proc ∧
    (deriveSample (T1 + k) T2 T3 (T4 + k)).uplink = (deriveSample T1 T2 T3 T4).uplink ∧
    (deriveSample (T1 + k) T2 T3 (T4 + k)).downlink = (deriveSample T1 T2 T3 T4).downlink ∧
    (deriveSample (T1 + k) T2 T3 (T4 + k)).offset = (deriveSample T1 T2 T3 T4).offset - k ∧
    deriveSample 1000 1500 1510 2000 =
      { rtt := 990, proc := 10, uplink := 495, downlink := 495, offset := 5 } := by
  refine ⟨?_, ?_, ?_, ?_, ?_, ?_⟩
  · simp only [deriveSample]; ring
  · simp only [deriveSample]
  · simp only [deriveSample]; ring
  · simp only [deriveSample]; ring
  · simp only [deriveSample]; ring
  · simp only [deriveSample]
    norm_num

/-- C9 (implicit): for every four inputs the two skew-corrected one-way legs
sum exactly to the derived round-trip time — the offset terms cancel, so
`uplink + downlink = rtt`. -/
theorem C9_legs_sum_to_rtt (T1 T2 T3 T4 : ℚ) :
    (deriveSample T1 T2 T3 T4).uplink + (deriveSample T1 T2 T3 T4).downlink
      = (deriveSample T1 T2 T3 T4).rtt := by
  simp only [deriveSample]
  ring

/-- C3 counterexample: at T1=0, T2=10, T3=20, T4=30 the hypotheses of the
claim hold (ordered timestamps, uplink transit 10 = downlink transit 10),
`offset = 0` holds, but `uplink = (rtt - proc)/2` fails: uplink = 10 while
(rtt - proc)/2 = (20 - 10)/2 = 5. The claimed equality only holds when the
responder processing time is zero. -/
theorem C3_counterexample :
    (0 : ℚ) ≤ 10 ∧ (10 : ℚ) ≤ 20 ∧ (20 : ℚ) ≤ 30 ∧
    ((10 : ℚ) - 0 = 30 - 20) ∧
    (deriveSample 0 10 20 30).offset = 0 ∧
    ¬ ((deriveSample 0 10 20 30).uplink
        = ((deriveSample 0 10 20 30).rtt - (deriveSample 0 10 20 30).proc) / 2) := by
  simp only [deriveSample]
  norm_num

/-- C3 amended: for all T1 ≤ T2 ≤ T3 ≤ T4 with the uplink transit T2 - T1
equal to the downlink transit T4 - T3, `deriveSample` yields offset = 0 and
uplink = downlink = rtt / 2 (not (rtt - proc)/2: the derived rtt already has
the processing time subtracted). -/
theorem C3_zero_skew_amended (T1 T2 T3 T4 : ℚ)
    (h12 : T1 ≤ T2) (h23 : T2 ≤ T3) (h34 : T3 ≤ T4)
    (hsym : T2 - T1 = T4 - T3) :
    (deriveSample T1 T2 T3 T4).offset = 0 ∧
    (deriveSample T1 T2 T3 T4).uplink = (deriveSample T1 T2 T3 T4).downlink ∧
    (deriveSample T1 T2 T3 T4).uplink = (deriveSample T1 T2 T3 T4).rtt / 2 := by
  simp only [deriveSample]
  refine ⟨by linarith, by linarith, by linarith⟩

/-- C3 witness: the amended statement instantiated at T1=0, T2=10, T3=20,
T4=30, where all hypotheses hold concretely. -/
theorem C3_zero_skew_amended_witness :
    (deriveSample 0 10 20 30).offset = 0 ∧
    (deriveSample 0 10 20 30).uplink = (deriveSample 0 10 20 30).downlink ∧
    (deriveSample 0 10 20 30).uplink = (deriveSample 0 10 20 30).rtt / 2 :=
  C3_zero_skew_amended 0 10 20 30 (by norm_num) (by norm_num) (by norm_num) (by norm_num)

/-- Cloudflare CGI trace record, `cgiTraceSchema` from src/shared/index.ts:
sixteen nullable string fields describing the responder's location and
connection. The core treats it as opaque pass-through data. -/
structure CgiTrace where
  fl : Option String
  h : Option String
  ip : Option String
  ts : Option String
  visit_scheme : Option String
  uag : Option String
  colo : Option String
  sliver : Option String
  http : Option String
  loc : Option String
  tls : Option String
  sni : Option String
  warp : Option String
  gateway : Option String
  rbi : Option String
  kex : Option String
deriving Repr, DecidableEq

/-- Wire message, `echoerSchema` from src/shared/index.ts: an opaque blob,
four nullable epoch timestamps, and the trace metadata. -/
structure EchoerPacket where
  blob : String
  t_tx_epoch : Option ℚ
  t_rx_epoch : Option ℚ
  t_tx2_epoch : Option ℚ
  t_rx2_epoch : Option ℚ
  cgiTrace : CgiTrace
deriving Repr, DecidableEq

/-- Arithmetic mean as computed by simple-statistics `mean`: sum divided by
length. (simple-statistics throws on an empty list; here `0/0 = 0` — every
call site in the source passes a nonempty list.) -/
def listMean (xs : List ℚ) : ℚ := xs.sum / (xs.length : ℚ)

/-- Per-metric averages of one session, the `averages` record built by
`Echoer.summarize` (src/unnamed/part_007 lines 121-144). -/
structure Averages where
  rtt : ℚ
  proc : ℚ
  uplink : ℚ
  downlink : ℚ
  offset : ℚ
deriving Repr, DecidableEq

/-- Session result, `EchoerResults`: the ordered samples plus their
per-metric averages. -/
structure EchoerResults where
  samples : List EchoSample
  averages : Averages
deriving Repr, DecidableEq

/-- Averages block of `Echoer.summarize`. -/
def summarizeAverages (results : List EchoSample) : Averages :=
  { rtt := listMean (results.map EchoSample.rtt)
    proc := listMean (results.map EchoSample.proc)
    uplink := listMean (results.map EchoSample.uplink)
    downlink := listMean (results.map EchoSample.downlink)
    offset := listMean (results.map EchoSample.offset) }

/-- Errors an `Echoer` session can reject with (src/unnamed/part_007):
the websocket error handler's generic error, and the premature-close error
carrying collected and target counts. -/
inductive EchoerError where
  | wsError
  | prematureTermination (collected : Nat) (target : Nat)
deriving Repr, DecidableEq

/-- Message text of each error, exactly the template strings of
src/unnamed/part_007 lines 149 and 156. -/
def EchoerError.message : EchoerError → String
  | .wsError => "WebSocket error occurred"
  | .prematureTermination collected target =>
      "Connection closed before collecting all samples (" ++
        toString collected ++ "/" ++ toString target ++ ")"

/-- Settlement state of the session's `completionPromise`
(src/unnamed/part_007 lines 26-41): pending until the first resolve or
reject. -/
inductive SessionStatus where
  | pending
  | resolved (res : EchoerResults)
  | rejected (err : EchoerError)
deriving Repr, DecidableEq

/-- Promise settlement semantics: `resolveCompletion`/`rejectCompletion` are
no-ops once the promise has settled. -/
def settle (s : SessionStatus) (s2 : SessionStatus) : SessionStatus :=
  match s with
  | .pending => s2
  | _ => s

/-- Mutable state of one `Echoer` session (src/unnamed/part_007): the target
sample count, the collected samples, and the completion promise's state. -/
structure EchoerState where
  samples : Nat
  results : List EchoSample
  status : SessionStatus
deriving Repr, DecidableEq

/-- Observable side effect of one run of the message handler, used to record
which branch was taken (console logging aside). -/
inductive EchoerEffect where
  | logParseError
  | warnIncomplete
  | schedulePing
  | closeAndResolve
deriving Repr, DecidableEq

/-- Receive handler `Echoer.handleMessage` (src/unnamed/part_007 lines
89-119). The arktype `parseEchoer` step is abstracted as the `Except` input
(its error branch is the handler's early return); `now` is the `Date.now()`
value stamped into `t_rx2_epoch`. The handler is a total function: every
input reaches one of the four return points, so no exception propagates.
On a complete quadruple it derives a sample via the Skew Correction Engine
and appends it; below the target it schedules the next ping, at the target
it summarizes and resolves the completion promise. -/
def handleMessage (st : EchoerState) (parseResult : Except String EchoerPacket)
    (now : ℚ) : EchoerState × EchoerEffect :=
  match parseResult with
  | .error _ => (st, .logParseError)
  | .ok p =>
      let parsed := { p with t_rx2_epoch := some now }
      match parsed.t_tx_epoch, parsed.t_rx_epoch, parsed.t_tx2_epoch, parsed.t_rx2_epoch with
      | some T1, some T2, some T3, some T4 =>
          let sample := deriveSample T1 T2 T3 T4
          let newResults := st.results ++ [sample]
          if newResults.length < st.samples then
            ({ st with results := newResults }, .schedulePing)
          else
            ({ st with
                results := newResults
                status := settle st.status (SessionStatus.resolved
                  { samples := newResults, averages := summarizeAverages newResults }) },
             .closeAndResolve)
      | _, _, _, _ => (st, .warnIncomplete)

/-- Close handler `Echoer.handleClose` (src/unnamed/part_007 lines 152-161):
on an unclean close with fewer than the target samples collected, reject the
completion promise with the premature-termination error carrying both
counts; otherwise only log. -/
def handleClose (st : EchoerState) (wasClean : Bool) : EchoerState :=
  if wasClean = false then
    if st.results.length < st.samples then
      { st with
          status := settle st.status (SessionStatus.rejected
            (EchoerError.prematureTermination st.results.length st.samples)) }
    else st
  else st

/-- Error handler `Echoer.handleError` (src/unnamed/part_007 lines 147-150):
reject the completion promise with a generic websocket error. -/
def handleError (st : EchoerState) : EchoerState :=
  { st with status := settle st.status (SessionStatus.rejected EchoerError.wsError) }

/-- Awaiting `Echoer.waitForCompletion` (src/unnamed/part_007 lines 50-53):
the value the awaited completion promise has produced so far — `none` while
the promise is pending (the await has not returned). -/
def waitForCompletion (st : EchoerState) : Option (Except EchoerError EchoerResults) :=
  match st.status with
  | .pending => none
  | .resolved r => some (.ok r)
  | .rejected e => some (.error e)

/-- C4: an otherwise well-formed echoed payload in which any of the
timestamps T1, T2, T3 is null is discarded by the receive handler: the state
is unchanged (no sample derived, the collected-sample count does not
increase, the completion promise is untouched so the session is not
terminated) and the handler returns normally through its incomplete-packet
branch. T4 (`t_rx2_epoch`) is stamped locally from the current time before
the null check, so it can never be null at that check — the quantification
over T1..T3 covers every way "any of T1..T4" can be null there. -/
theorem C4_incomplete_packet_discarded (st : EchoerState) (p : EchoerPacket) (now : ℚ)
    (h : p.t_tx_epoch = none ∨ p.t_rx_epoch = none ∨ p.t_tx2_epoch = none) :
    handleMessage st (Except.ok p) now = (st, EchoerEffect.warnIncomplete) ∧
    (handleMessage st (Except.ok p) now).1.results.length = st.results.length ∧
    (handleMessage st (Except.ok p) now).1.status = st.status := by
  have key : handleMessage st (Except.ok p) now = (st, EchoerEffect.warnIncomplete) := by
    obtain ⟨blob, t1, t2, t3, t4, cg⟩ := p
    rcases t1 with _ | T1 <;> rcases t2 with _ | T2 <;> rcases t3 with _ | T3 <;>
      simp_all [handleMessage]
  exact ⟨key, by rw [key], by rw [key]⟩

/-- C4 witness: a concrete packet whose `t_rx_epoch` (T2) is null is
discarded by a fresh session's receive handler. -/
theorem C4_incomplete_packet_discarded_witness :
    handleMessage
        { samples := 10, results := [], status := SessionStatus.pending }
        (Except.ok
          { blob := "f2a9", t_tx_epoch := some 1000, t_rx_epoch := none,
            t_tx2_epoch := some 1010, t_rx2_epoch := none,
            cgiTrace :=
              { fl := none, h := none, ip := none, ts := none, visit_scheme := none,
                uag := none, colo := none, sliver := none, http := none, loc := none,
                tls := none, sni := none, warp := none, gateway := none, rbi := none,
                kex := none } })
        2000
      = ({ samples := 10, results := [], status := SessionStatus.pending },
         EchoerEffect.warnIncomplete) :=
  (C4_incomplete_packet_discarded
    { samples := 10, results := [], status := SessionStatus.pending }
    { blob := "f2a9", t_tx_epoch := some 1000, t_rx_epoch := none,
      t_tx2_epoch := some 1010, t_rx2_epoch := none,
      cgiTrace :=
        { fl := none, h := none, ip := none, ts := none, visit_scheme := none,
          uag := none, colo := none, sliver := none, http := none, loc := none,
          tls := none, sni := none, warp := none, gateway := none, rbi := none,
          kex := none } }
    2000 (Or.inr (Or.inl rfl))).1

/-- C5: when the channel of a still-pending session closes uncleanly before
the target sample count is reached, the close handler rejects the completion
promise with the premature-termination error carrying both the collected
count and the target, whose message text reports both numbers; the session
never resolves with a successful result. -/
theorem C5_premature_close_rejects_with_counts (st : EchoerState)
    (hpend : st.status = SessionStatus.pending)
    (hshort : st.results.length < st.samples) :
    (handleClose st false).status
      = SessionStatus.rejected
          (EchoerError.prematureTermination st.results.length st.samples) ∧
    (EchoerError.prematureTermination st.results.length st.samples).message
      = "Connection closed before collecting all samples (" ++
          toString st.results.length ++ "/" ++ toString st.samples ++ ")" ∧
    ∀ r, (handleClose st false).status ≠ SessionStatus.resolved r := by
  have key : (handleClose st false).status
      = SessionStatus.rejected
          (EchoerError.prematureTermination st.results.length st.samples) := by
    simp [handleClose, hshort, hpend, settle]
  refine ⟨key, rfl, ?_⟩
  intro r
  rw [key]
  intro hcontra
  exact SessionStatus.noConfusion hcontra

/-- C5 witness: a pending session holding 3 of 10 requested samples whose
channel closes uncleanly is rejected with collected=3, target=10, and the
error message reports "(3/10)". -/
theorem C5_premature_close_rejects_with_counts_witness :
    (handleClose
        { samples := 10
          results := List.replicate 3
            { rtt := 990, proc := 10, uplink := 495, downlink := 495, offset := 5 }
          status := SessionStatus.pending } false).status
      = SessionStatus.rejected (EchoerError.prematureTermination 3 10) ∧
    (EchoerError.prematureTermination 3 10).message
      = "Connection closed before collecting all samples (" ++
          toString 3 ++ "/" ++ toString 10 ++ ")" ∧
    ∀ r, (handleClose
        { samples := 10
          results := List.replicate 3
            { rtt := 990, proc := 10, uplink := 495, downlink := 495, offset := 5 }
          status := SessionStatus.pending } false).status
      ≠ SessionStatus.resolved r :=
  C5_premature_close_rejects_with_counts
    { samples := 10
      results := List.replicate 3
        { rtt := 990, proc := 10, uplink := 495, downlink := 495, offset := 5 }
      status := SessionStatus.pending }
    rfl (by decide)

/-- C10 (implicit): the close handler settles the completion promise only
when the close is unclean and fewer than the target samples were collected —
any status change implies exactly that, with the premature-termination
rejection; and for a clean close of a still-pending session the promise is
neither resolved nor rejected, so `waitForCompletion` has no value to return
(and no later event will supply one once the channel is closed). -/
theorem C10_close_settles_only_unclean_short (st : EchoerState) (wasClean : Bool) :
    ((handleClose st wasClean).status ≠ st.status →
      wasClean = false ∧ st.results.length < st.samples ∧
      (handleClose st wasClean).status
        = SessionStatus.rejected
            (EchoerError.prematureTermination st.results.length st.samples)) ∧
    (st.status = SessionStatus.pending → wasClean = true →
      waitForCompletion (handleClose st wasClean) = none) := by
  constructor
  · intro hne
    cases wasClean with
    | true => simp [handleClose] at hne
    | false =>
        by_cases hshort : st.results.length < st.samples
        · refine ⟨rfl, hshort, ?_⟩
          cases hst : st.status with
          | pending => simp [handleClose, hshort, settle, hst]
          | resolved r => exfalso; exact hne (by simp [handleClose, hshort, settle, hst])
          | rejected e => exfalso; exact hne (by simp [handleClose, hshort, settle, hst])
        · simp [handleClose, hshort] at hne
  · intro hpend hclean
    subst hclean
    simp [handleClose, waitForCompletion, hpend]

/-- C10 witness: a clean close of a pending session that has collected 2 of
5 samples leaves `waitForCompletion` without a value. -/
theorem C10_close_settles_only_unclean_short_witness :
    waitForCompletion
        (handleClose
          { samples := 5
            results := List.replicate 2
              { rtt := 990, proc := 10, uplink := 495, downlink := 495, offset := 5 }
            status := SessionStatus.pending } true)
      = none :=
  (C10_close_settles_only_unclean_short
    { samples := 5
      results := List.replicate 2
        { rtt := 990, proc := 10, uplink := 495, downlink := 495, offset := 5 }
      status := SessionStatus.pending } true).2 rfl rfl

/-- Smallest element as computed by simple-statistics `min` on a nonempty
list (the source never passes an empty list; `0` stands in for its throw). -/
def listMin : List ℚ → ℚ
  | [] => 0
  | x :: xs => xs.foldl min x

/-- Largest element as computed by simple-statistics `max` on a nonempty
list (the source never passes an empty list; `0` stands in for its throw). -/
def listMax : List ℚ → ℚ
  | [] => 0
  | x :: xs => xs.foldl max x

/-- Per-metric aggregate block {mean, min, max} as built by
`aggregateResults` (src/unnamed/part_006) and `generateJsonOutput`
(src/client/echoer/json-exporter.ts). The source also computes
`stdDev = standardDeviation(...)`, a square root that leaves `ℚ`; no claim
concerns it and it is omitted. -/
structure MetricStats where
  mean : ℚ
  min : ℚ
  max : ℚ
deriving Repr, DecidableEq

/-- Statistics of one metric over a list of values. -/
def metricStats (xs : List ℚ) : MetricStats :=
  { mean := listMean xs, min := listMin xs, max := listMax xs }

/-- Cross-session aggregate, the `aggregated` block of the source: the
total sample count and per-metric statistics. -/
structure AggregateStats where
  totalSamples : Nat
  rtt : MetricStats
  proc : MetricStats
  uplink : MetricStats
  downlink : MetricStats
  offset : MetricStats
deriving Repr, DecidableEq

/-- Aggregation over all sessions, from `aggregateResults`
(src/unnamed/part_006 lines 116-159) and `generateJsonOutput`
(src/client/echoer/json-exporter.ts lines 6-79): flatten every session's
samples into one pool (`results.flatMap(r => r.samples)`) and compute each
metric's statistics over that pool. -/
def aggregateStats (results : List EchoerResults) : AggregateStats :=
  let allSamples := (results.map EchoerResults.samples).flatten
  { totalSamples := allSamples.length
    rtt := metricStats (allSamples.map EchoSample.rtt)
    proc := metricStats (allSamples.map EchoSample.proc)
    uplink := metricStats (allSamples.map EchoSample.uplink)
    downlink := metricStats (allSamples.map EchoSample.downlink)
    offset := metricStats (allSamples.map EchoSample.offset) }

/-- C6: for a run of 3 sessions of 5 samples each, aggregation covers
exactly 15 samples, and for each metric the reported mean is the arithmetic
mean of all 15 individual per-sample values — the naive recomputation over
the flattened sample pool, not a mean of per-session means. -/
theorem C6_aggregate_is_flat_pool_mean (r1 r2 r3 : EchoerResults)
    (h1 : r1.samples.length = 5) (h2 : r2.samples.length = 5)
    (h3 : r3.samples.length = 5) :
    (aggregateStats [r1, r2, r3]).totalSamples = 15 ∧
    (aggregateStats [r1, r2, r3]).rtt.mean
      = (((r1.samples ++ r2.samples ++ r3.samples).map EchoSample.rtt).sum) / 15 ∧
    (aggregateStats [r1, r2, r3]).proc.mean
      = (((r1.samples ++ r2.samples ++ r3.samples).map EchoSample.proc).sum) / 15 ∧
    (aggregateStats [r1, r2, r3]).uplink.mean
      = (((r1.samples ++ r2.samples ++ r3.samples).map EchoSample.uplink).sum) / 15 ∧
    (aggregateStats [r1, r2, r3]).downlink.mean
      = (((r1.samples ++ r2.samples ++ r3.samples).map EchoSample.downlink).sum) / 15 ∧
    (aggregateStats [r1, r2, r3]).offset.mean
      = (((r1.samples ++ r2.samples ++ r3.samples).map EchoSample.offset).sum) / 15 := by
  have hall : (([r1, r2, r3].map EchoerResults.samples).flatten)
      = r1.samples ++ r2.samples ++ r3.samples := by
    simp
  refine ⟨?_, ?_, ?_, ?_, ?_, ?_⟩ <;>
    simp [aggregateStats, metricStats, listMean, hall, h1, h2, h3]

/-- Concrete session result used to instantiate the aggregation claim: five
identical samples per session. -/
def c6ResultA : EchoerResults :=
  { samples := List.replicate 5 { rtt := 8, proc := 1, uplink := 4, downlink := 4, offset := 2 }
    averages := summarizeAverages
      (List.replicate 5 { rtt := 8, proc := 1, uplink := 4, downlink := 4, offset := 2 }) }

/-- Second concrete session result for the aggregation claim. -/
def c6ResultB : EchoerResults :=
  { samples := List.replicate 5 { rtt := 12, proc := 2, uplink := 6, downlink := 6, offset := -1 }
    averages := summarizeAverages
      (List.replicate 5 { rtt := 12, proc := 2, uplink := 6, downlink := 6, offset := -1 }) }

/-- Third concrete session result for the aggregation claim. -/
def c6ResultC : EchoerResults :=
  { samples := List.replicate 5 { rtt := 10, proc := 3, uplink := 5, downlink := 5, offset := 0 }
    averages := summarizeAverages
      (List.replicate 5 { rtt := 10, proc := 3, uplink := 5, downlink := 5, offset := 0 }) }

/-- C6 witness: three concrete sessions of five samples each aggregate over
exactly 15 samples with every mean equal to the flat-pool mean. -/
theorem C6_aggregate_is_flat_pool_mean_witness :
    (aggregateStats [c6ResultA, c6ResultB, c6ResultC]).totalSamples = 15 ∧
    (aggregateStats [c6ResultA, c6ResultB, c6ResultC]).rtt.mean
      = (((c6ResultA.samples ++ c6ResultB.samples ++ c6ResultC.samples).map
          EchoSample.rtt).sum) / 15 ∧
    (aggregateStats [c6ResultA, c6ResultB, c6ResultC]).proc.mean
      = (((c6ResultA.samples ++ c6ResultB.samples ++ c6ResultC.samples).map
          EchoSample.proc).sum) / 15 ∧
    (aggregateStats [c6ResultA, c6ResultB, c6ResultC]).uplink.mean
      = (((c6ResultA.samples ++ c6ResultB.samples ++ c6ResultC.samples).map
          EchoSample.uplink).sum) / 15 ∧
    (aggregateStats [c6ResultA, c6ResultB, c6ResultC]).downlink.mean
      = (((c6ResultA.samples ++ c6ResultB.samples ++ c6ResultC.samples).map
          EchoSample.downlink).sum) / 15 ∧
    (aggregateStats [c6ResultA, c6ResultB, c6ResultC]).offset.mean
      = (((c6ResultA.samples ++ c6ResultB.samples ++ c6ResultC.samples).map
          EchoSample.offset).sum) / 15 :=
  C6_aggregate_is_flat_pool_mean c6ResultA c6ResultB c6ResultC rfl rfl rfl

/-- Joining of the per-session completion promises, `Promise.all` over
`clients.map(client => client.waitForCompletion())` (src/unnamed/part_006
lines 236-238): either every session resolved and the list of results is
produced, or some session rejected and only a single error survives. Which
rejection wins in the source depends on event timing; the model takes the
first in session order — every choice discards all session results. -/
def promiseAll : List (Except EchoerError EchoerResults) →
    Except EchoerError (List EchoerResults)
  | [] => .ok []
  | .error e :: _ => .error e
  | .ok r :: rest => (promiseAll rest).map (fun l => r :: l)

/-- Outcome of one whole run as reported to the top-level caller by `main`
(src/unnamed/part_006 lines 234-252): on success the results are aggregated,
displayed, saved and the process exits 0; on any rejection the catch block
logs the error and exits 1 — carrying no session results. -/
inductive RunReport where
  | success (results : List EchoerResults) (agg : AggregateStats) (exitCode : Nat)
  | failure (err : EchoerError) (exitCode : Nat)
deriving Repr, DecidableEq

/-- Orchestrating `main` of src/unnamed/part_006 (the name `main` is
reserved for executables in Lean, hence `mainRun`), restricted to its
result-joining and reporting data flow (console rendering, JSON export and
the location lookup consume the same values and are omitted): await all
sessions, aggregate on success, exit 1 with only the error on failure. -/
def mainRun (sessionOutcomes : List (Except EchoerError EchoerResults)) : RunReport :=
  match promiseAll sessionOutcomes with
  | .ok results => .success results (aggregateStats results) 0
  | .error e => .failure e 1

/-- Session results a run report delivers to the caller: all of them on
success, none on failure (the catch block reaches neither
`aggregateResults` nor `saveResultsToJson`). -/
def RunReport.reportedResults : RunReport → List EchoerResults
  | .success results _ _ => results
  | .failure _ _ => []

/-- C7 counterexample: a run of two sessions in which the first completes
with one sample and the second fails prematurely is reported as a whole-run
failure — but the caller receives no partial data at all: the successful
session's result is not delivered. This refutes the claim that the caller
nevertheless receives the SessionResults of the successful sessions. -/
theorem C7_counterexample :
    mainRun
        [Except.ok
          { samples := [{ rtt := 990, proc := 10, uplink := 495, downlink := 495, offset := 5 }]
            averages := { rtt := 990, proc := 10, uplink := 495, downlink := 495, offset := 5 } },
         Except.error (EchoerError.prematureTermination 3 10)]
      = RunReport.failure (EchoerError.prematureTermination 3 10) 1 ∧
    (mainRun
        [Except.ok
          { samples := [{ rtt := 990, proc := 10, uplink := 495, downlink := 495, offset := 5 }]
            averages := { rtt := 990, proc := 10, uplink := 495, downlink := 495, offset := 5 } },
         Except.error (EchoerError.prematureTermination 3 10)]).reportedResults
      = [] := by
  constructor <;> rfl

/-- C7 amended: when at least one session ends Failed, the run is reported
to the top-level caller as a whole-run failure (exit code 1 carrying one
session's error), and the partial data of the successful sessions is
discarded — the caller receives no SessionResult. -/
theorem C7_failure_drops_partial_amended
    (outcomes : List (Except EchoerError EchoerResults)) (e : EchoerError)
    (hmem : Except.error e ∈ outcomes) :
    ∃ e2, mainRun outcomes = RunReport.failure e2 1 ∧
      (mainRun outcomes).reportedResults = [] := by
  have key : ∀ xs : List (Except EchoerError EchoerResults),
      Except.error e ∈ xs → ∃ e2, promiseAll xs = Except.error e2 := by
    intro xs
    induction xs with
    | nil => intro hmem2; cases hmem2
    | cons x rest ih =>
        intro hmem2
        cases x with
        | error e1 => exact ⟨e1, rfl⟩
        | ok r =>
            have hrest : Except.error e ∈ rest := by
              rcases List.mem_cons.mp hmem2 with h2 | h2
              · exact Except.noConfusion h2
              · exact h2
            obtain ⟨e2, he2⟩ := ih hrest
            exact ⟨e2, by simp [promiseAll, he2, Except.map]⟩
  obtain ⟨e2, he2⟩ := key outcomes hmem
  exact ⟨e2, by simp [mainRun, he2], by simp [mainRun, he2, RunReport.reportedResults]⟩

/-- C7 witness: the amended statement at the concrete two-session run of the
counterexample input. -/
theorem C7_failure_drops_partial_amended_witness :
    ∃ e2,
      mainRun
          [Except.ok
            { samples := [{ rtt := 990, proc := 10, uplink := 495, downlink := 495, offset := 5 }]
              averages := { rtt := 990, proc := 10, uplink := 495, downlink := 495, offset := 5 } },
           Except.error (EchoerError.prematureTermination 3 10)]
        = RunReport.failure e2 1 ∧
      (mainRun
          [Except.ok
            { samples := [{ rtt := 990, proc := 10, uplink := 495, downlink := 495, offset := 5 }]
              averages := { rtt := 990, proc := 10, uplink := 495, downlink := 495, offset := 5 } },
           Except.error (EchoerError.prematureTermination 3 10)]).reportedResults
        = [] :=
  C7_failure_drops_partial_amended _ (EchoerError.prematureTermination 3 10)
    (List.mem_cons_of_mem _ (List.mem_singleton.mpr rfl))

/-- Perf-type selector `PERF_TYPE.Echoer` from src/shared/index.ts. -/
def PERF_TYPE.Echoer : String := "echoer"

/-- Perf-type selector `PERF_TYPE.EchoerProcessing` from src/shared/index.ts. -/
def PERF_TYPE.EchoerProcessing : String := "echoer-processing"

/-- Action the responder's message handler takes on the socket: return
without touching it, close it with a protocol-error code, or send an echoed
packet back. -/
inductive ResponderAction where
  | ignore
  | closeWithCode (code : Nat) (reason : String)
  | reply (packet : EchoerPacket)
deriving Repr, DecidableEq

/-- Echo responder `Candidate.webSocketMessage`
(src/unnamed/part_002 lines 92-146; src/doperf/src/objects/candidate.ts
lines 52-105 is the same handler without the trace attachment). The arktype
`parseEchoer` step is abstracted as the `Except` input; `tRx` is the
`Date.now()` recorded on entry and `tTx2` the `Date.now()` taken just before
sending — in processing mode the bounded-duration workloads run between the
two stamps and mutate only the object's storage, never the packet;
`serverTrace` is the stored CGI trace attached to the reply. With no
perf type attached the handler returns; with an unknown one it closes with
code 4001; on a parse error it closes with code 4001; on a valid payload it
stamps `t_rx_epoch := tRx` and `t_tx2_epoch := tTx2` and echoes the packet
back otherwise unchanged. -/
def webSocketMessage (perfType : Option String) (data : Except String EchoerPacket)
    (tRx tTx2 : ℚ) (serverTrace : CgiTrace) : ResponderAction :=
  match perfType with
  | none => .ignore
  | some pt =>
      if pt = PERF_TYPE.EchoerProcessing ∨ pt = PERF_TYPE.Echoer then
        match data with
        | .error summary => .closeWithCode 4001 summary
        | .ok parsed =>
            .reply { parsed with
                      t_rx_epoch := some tRx
                      t_tx2_epoch := some tTx2
                      cgiTrace := serverTrace }
      else .closeWithCode 4001 "Invalid perf type"

/-- C8: for every valid ping payload the responder replies with a packet in
which `t_rx_epoch` (T2) is its receive time and `t_tx2_epoch` (T3) its
transmit time, while `blob` and `t_tx_epoch` (T1) are preserved exactly as
sent and `t_rx2_epoch` (T4) is never set by the responder — if it was null
on the wire (as the sender always sends it) it is still null in the reply,
to be filled only by the original sender locally. -/
theorem C8_responder_stamps_T2_T3_preserves_rest (pt : String) (parsed : EchoerPacket)
    (tRx tTx2 : ℚ) (serverTrace : CgiTrace)
    (hpt : pt = PERF_TYPE.Echoer ∨ pt = PERF_TYPE.EchoerProcessing) :
    ∃ echoed,
      webSocketMessage (some pt) (Except.ok parsed) tRx tTx2 serverTrace
        = ResponderAction.reply echoed ∧
      echoed.t_rx_epoch = some tRx ∧
      echoed.t_tx2_epoch = some tTx2 ∧
      echoed.blob = parsed.blob ∧
      echoed.t_tx_epoch = parsed.t_tx_epoch ∧
      echoed.t_rx2_epoch = parsed.t_rx2_epoch ∧
      (parsed.t_rx2_epoch = none → echoed.t_rx2_epoch = none) := by
  refine ⟨{ parsed with
              t_rx_epoch := some tRx
              t_tx2_epoch := some tTx2
              cgiTrace := serverTrace }, ?_, rfl, rfl, rfl, rfl, rfl, fun hnull => hnull⟩
  rcases hpt with hpt | hpt <;> subst hpt <;>
    simp [webSocketMessage, PERF_TYPE.Echoer, PERF_TYPE.EchoerProcessing]

/-- C8 witness: a concrete freshly sent ping (only T1 set) echoed in
baseline mode carries T2 = 1500 and T3 = 1510 with blob and T1 intact and
T4 still null. -/
theorem C8_responder_stamps_T2_T3_preserves_rest_witness :
    ∃ echoed,
      webSocketMessage (some PERF_TYPE.Echoer)
          (Except.ok
            { blob := "9d4c", t_tx_epoch := some 1000, t_rx_epoch := none,
              t_tx2_epoch := none, t_rx2_epoch := none,
              cgiTrace :=
                { fl := none, h := none, ip := none, ts := none, visit_scheme := none,
                  uag := none, colo := none, sliver := none, http := none, loc := none,
                  tls := none, sni := none, warp := none, gateway := none, rbi := none,
                  kex := none } })
          1500 1510
          { fl := none, h := none, ip := none, ts := none, visit_scheme := none,
            uag := none, colo := some "MXP", sliver := none, http := none, loc := none,
            tls := none, sni := none, warp := none, gateway := none, rbi := none,
            kex := none }
        = ResponderAction.reply echoed ∧
      echoed.t_rx_epoch = some 1500 ∧
      echoed.t_tx2_epoch = some 1510 ∧
      echoed.blob = "9d4c" ∧
      echoed.t_tx_epoch = some 1000 ∧
      echoed.t_rx2_epoch = none ∧
      ((none : Option ℚ) = none → echoed.t_rx2_epoch = none) :=
  C8_responder_stamps_T2_T3_preserves_rest PERF_TYPE.Echoer
    { blob := "9d4c", t_tx_epoch := some 1000, t_rx_epoch := none,
      t_tx2_epoch := none, t_rx2_epoch := none,
      cgiTrace :=
        { fl := none, h := none, ip := none, ts := none, visit_scheme := none,
          uag := none, colo := none, sliver := none, http := none, loc := none,
          tls := none, sni := none, warp := none, gateway := none, rbi := none,
          kex := none } }
    1500 1510
    { fl := none, h := none, ip := none, ts := none, visit_scheme := none,
      uag := none, colo := some "MXP", sliver := none, http := none, loc := none,
      tls := none, sni := none, warp := none, gateway := none, rbi := none,
      kex := none }
    (Or.inl rfl)
